import Mathlib

/-
Shallow embedding of the Photon room-lifecycle webhook handlers of
src/cloudscript.js (`checkWebhookArgs`, `onGameCreated`, `handlers.RoomCreated`,
`handlers.RoomJoined`, `handlers.RoomLeft`, `handlers.RoomClosed`) together with
the shared-group store they operate on.

Modelling conventions:
- JavaScript objects that the script builds with a fixed set of fields are
  modelled as Lean structures; a field the script may leave `undefined` is an
  `Option`.  Reading a property of `undefined`/`null` raises a `TypeError`,
  modelled by the `JsErr.typeError` constructor.
- The external shared-group store (PlayFab `CreateSharedGroup`,
  `GetSharedGroupData`, `UpdateSharedGroupData`, `DeleteSharedGroup`) is a pair
  of key/value tables: one for room records (keyed by game id) and one for
  per-player games lists (keyed by `<playerId>_GamesList`).  A server API call
  against a missing group throws, modelled by `JsErr.apiError`.  The
  JSON encode/decode performed at the store boundary is treated as the
  identity on the structured values.
- `UpdateSharedGroupData` with a `null` value removes the key, which is how
  `deleteSharedGroupEntry` deletes an entry.
- Handlers are total functions threading the store explicitly:
  `Store -> Store x Except JsErr WebhookResult`.  The `Except` layer is the
  JavaScript exception; the `try/catch` at each handler boundary is a separate
  definition that maps the exception to a `{ResultCode, Message}` result,
  exactly as the source does.  Store writes performed before an exception stay
  visible in the returned store, as they do against the real external store.
- The audit side channel of `PhotonException` (`logException`, which writes to
  title data with a randomised key) is not part of any room or games-list
  record and is not modelled; `PhotonException` keeps its `ResultCode` and
  `Message` fields, which is all the handlers observe.
- The ambient authenticated caller `currentPlayerId` and the timestamp from
  `getISOTimestamp()` are passed as parameters (`currentPlayerId` is an
  `Option String` because it is undefined in the `RoomClosed` handler).
-/

namespace NetworkTestCloudScript

/-- Room creation options (`args.CreateOptions`, stored as `RoomOptions`):
max players, player TTL and the strict-rejoin-validation flag, the three
fields the lifecycle handlers read. -/
structure RoomOptions where
  MaxPlayers : Nat
  PlayerTTL : Int
  CheckUserOnJoin : Bool
deriving DecidableEq, Repr

/-- The ambient `script`/`server` version globals captured into `Env`. -/
structure ScriptEnv where
  titleId : String
  version : String
  revision : String
  serverVersion : String
deriving DecidableEq, Repr

/-- The `Env` snapshot built by `onGameCreated` (cloudscript.js lines 396-400). -/
structure EnvData where
  Region : Option String
  AppVersion : Option String
  AppId : Option String
  TitleId : String
  CloudScriptVersion : String
  CloudScriptRevision : String
  PlayFabServerVersion : String
  WebhooksVersion : String
deriving DecidableEq, Repr

/-- The `Creation` field `{Timestamp, UserId, Type}` (line 402). -/
structure CreationData where
  Timestamp : String
  UserId : Option String
  EvType : Option String  -- source field name `Type`, a reserved word in Lean
deriving DecidableEq, Repr

/-- One roster slot `{UserId, Inactive}` of the `Actors` map (lines 403, 488). -/
structure Actor where
  UserId : Option String
  Inactive : Bool
deriving DecidableEq, Repr

/-- A `JoinEvents`/`LoadEvents` log entry `{ActorNr, UserId}` (lines 446, 496). -/
structure ActorEventEntry where
  ActorNr : Option Int
  UserId : Option String
deriving DecidableEq, Repr

/-- A `LeaveEvents` log entry `{ActorNr, UserId, CanRejoin}` (line 540). -/
structure LeaveEventEntry where
  ActorNr : Option Int
  UserId : Option String
  CanRejoin : Option Bool
deriving DecidableEq, Repr

/-- A `SaveEvents` log entry `{ActorCount}` (line 572). -/
structure SaveEventEntry where
  ActorCount : Option Int
deriving DecidableEq, Repr

/-- The room record persisted under the game id, with the fields written by
`onGameCreated` plus the event logs and `State` added later.  `data.Actors` is
a JavaScript object keyed by the actor number; it is modelled as an
association list with `Int` keys (JS object keys are the decimal strings of
those integers, and the translation between the two is injective).  The source
never writes an `ActiveActors` field anywhere, so the record has none; the
read of `data.ActiveActors` in `handlers.RoomJoined` (line 476) is a property
access on `undefined`. -/
structure RoomData where
  Env : EnvData
  RoomOpts : Option RoomOptions
  Creation : CreationData
  Actors : List (Int × Actor)
  NextActorNr : Int
  JoinEvents : Option (List (String × ActorEventEntry)) := none
  LeaveEvents : Option (List (String × LeaveEventEntry)) := none
  LoadEvents : Option (List (String × ActorEventEntry)) := none
  SaveEvents : Option (List (String × SaveEventEntry)) := none
  State : Option String := none
deriving DecidableEq, Repr

/-- A games-list entry.  `onGameCreated` (line 406) and the `Save` path of
`RoomClosed` (line 574) store the whole room record; `RoomJoined` (line 498)
stores the reduced `{Env, Creation, ActorNr}` object. -/
inductive GEntry where
  | full (data : RoomData)
  | ref (Env : EnvData) (Creation : CreationData) (ActorNr : Option Int)
deriving DecidableEq, Repr

/-- A per-player games list: game id to entry. -/
abbrev GamesList := List (String × GEntry)

/-- The external shared-group store: room records keyed by game id and games
lists keyed by `<playerId>_GamesList`.  A key present in the table is an
existing shared group. -/
structure Store where
  rooms : List (String × RoomData)
  lists : List (String × GamesList)
deriving DecidableEq, Repr

/-- The webhook event envelope.  Every field the four handlers or
`checkWebhookArgs` ever read is present; a field absent from a concrete event
is `none` (JavaScript `undefined`).  `State2ActorList` models
`args.State2.ActorList`: the outer `Option` is the presence of `State2`, the
inner one the presence of its `ActorList`, of which only the length is used.
`Properties` and `Data` are only ever tested for presence. -/
structure WebhookArgs where
  AppId : Option String := none
  AppVersion : Option String := none
  Region : Option String := none
  GameId : Option String := none
  EvType : Option String := none  -- source field name `Type`, a reserved word in Lean
  ActorNr : Option Int := none
  UserId : Option String := none
  Username : Option String := none
  Nickname : Option String := none
  ActorCount : Option Int := none
  State : Option String := none
  State2ActorList : Option (Option Nat) := none
  CreateIfNotExists : Option Bool := none
  CreateOptions : Option RoomOptions := none
  RoomOpts : Option RoomOptions := none
  TargetActor : Option Int := none
  Properties : Option Unit := none
  Data : Option Unit := none
  IsInactive : Option Bool := none
  Inactive : Option Bool := none
  Reason : Option String := none
deriving DecidableEq, Repr

/-- The `{ResultCode, Message, State?}` object every handler returns. -/
structure WebhookResult where
  ResultCode : Int
  Message : String
  State : Option String := none
deriving DecidableEq, Repr

/-- A JavaScript exception as observed by the `catch` blocks: a
`PhotonException` (with its `ResultCode` and `Message`), a `TypeError` from a
property access on `undefined`, or an error thrown by a `server.*` API call. -/
inductive JsErr where
  | photon (code : Int) (msg : String)
  | typeError (msg : String)
  | apiError (msg : String)
deriving DecidableEq, Repr

deriving instance DecidableEq for Except

/-- The uniform mapping every `catch` block applies: a `PhotonException`
yields `{ResultCode: e.ResultCode, Message: e.Message}`, anything else yields
`{ResultCode: -1, Message: e.name + ": " + e.message}` (lines 500-505 etc.). -/
def errResult : JsErr → WebhookResult
  | .photon c m => { ResultCode := c, Message := m }
  | .typeError m => { ResultCode := -1, Message := "TypeError: " ++ m }
  | .apiError m => { ResultCode := -1, Message := "Error: " ++ m }

/-- Association-list lookup keyed on the first component, the model of reading
a property of a JavaScript object (or a shared-group data key; keys of a JS
object are unique, so lists built by `lset`/`lerase` never hold a key twice). -/
def lget {α β : Type} [DecidableEq α] : List (α × β) → α → Option β
  | [], _ => none
  | (a, b) :: t, k => if a = k then some b else lget t k

/-- Association-list update-or-append, the model of `obj[k] = v`: an existing
key keeps its position and its value is replaced, a new key is appended
(JS property order). -/
def lset {α β : Type} [DecidableEq α] : List (α × β) → α → β → List (α × β)
  | [], k, v => [(k, v)]
  | (a, b) :: t, k, v =>
      if a = k then (k, v) :: t else (a, b) :: lset t k v

/-- Association-list key removal, the model of `delete obj[k]` and of a
shared-group entry being set to `null`. -/
def lerase {α β : Type} [DecidableEq α] : List (α × β) → α → List (α × β)
  | [], _ => []
  | (a, b) :: t, k => if a = k then lerase t k else (a, b) :: lerase t k

/-- Updating a key makes it present with the new value. -/
theorem lget_lset_self {α β : Type} [DecidableEq α] (l : List (α × β))
    (k : α) (v : β) : lget (lset l k v) k = some v := by
  induction l with
  | nil => simp [lget, lset]
  | cons p t ih =>
      obtain ⟨a, b⟩ := p
      by_cases h : a = k
      · simp [lget, lset, h]
      · simp [lget, lset, h, ih]

/-- Updating one key leaves every other key unchanged. -/
theorem lget_lset_ne {α β : Type} [DecidableEq α] (l : List (α × β))
    (k k' : α) (v : β) (h : k' ≠ k) : lget (lset l k v) k' = lget l k' := by
  have h2 : ¬ k = k' := fun he => h he.symm
  induction l with
  | nil => simp [lget, lset, h2]
  | cons p t ih =>
      obtain ⟨a, b⟩ := p
      by_cases ha : a = k
      · subst ha
        simp [lget, lset, h2]
      · by_cases ha' : a = k'
        · simp [lget, lset, ha, ha', h]
        · simp [lget, lset, ha, ha', ih]

/-- Removing a key makes it absent. -/
theorem lget_lerase_self {α β : Type} [DecidableEq α] (l : List (α × β))
    (k : α) : lget (lerase l k) k = none := by
  induction l with
  | nil => simp [lget, lerase]
  | cons p t ih =>
      obtain ⟨a, b⟩ := p
      by_cases h : a = k
      · simp [lerase, h, ih]
      · simp [lget, lerase, h, ih]

/-- Removing one key leaves every other key unchanged. -/
theorem lget_lerase_ne {α β : Type} [DecidableEq α] (l : List (α × β))
    (k k' : α) (h : k' ≠ k) : lget (lerase l k) k' = lget l k' := by
  have h2 : ¬ k = k' := fun he => h he.symm
  induction l with
  | nil => simp [lerase]
  | cons p t ih =>
      obtain ⟨a, b⟩ := p
      by_cases ha : a = k
      · subst ha
        simp [lget, lerase, h2, ih]
      · simp [lget, lerase, ha, ih]

/-- Every pair of an updated list was in the original list or is the update. -/
theorem mem_lset {α β : Type} [DecidableEq α] (l : List (α × β)) (k : α)
    (v : β) (p : α × β) (hp : p ∈ lset l k v) : p ∈ l ∨ p = (k, v) := by
  induction l with
  | nil => simp [lset] at hp; simp [hp]
  | cons q t ih =>
      obtain ⟨a, b⟩ := q
      by_cases h : a = k
      · simp [lset, h] at hp
        rcases hp with hp | hp
        · right; simp [hp]
        · left; simp [hp]
      · simp [lset, h] at hp
        rcases hp with hp | hp
        · left; simp [hp]
        · rcases ih hp with hm | hm
          · left; simp [hm]
          · right; exact hm

/-- Every pair surviving a removal was in the original list. -/
theorem mem_lerase {α β : Type} [DecidableEq α] (l : List (α × β)) (k : α)
    (p : α × β) (hp : p ∈ lerase l k) : p ∈ l := by
  induction l with
  | nil => simp [lerase] at hp
  | cons q t ih =>
      obtain ⟨a, b⟩ := q
      by_cases h : a = k
      · simp [lerase, h] at hp
        simp [ih hp]
      · simp [lerase, h] at hp
        rcases hp with hp | hp
        · simp [hp]
        · simp [ih hp]

/-- A successful lookup exhibits a member of the list with that key. -/
theorem mem_of_lget {α β : Type} [DecidableEq α] (l : List (α × β)) (k : α)
    (v : β) (h : lget l k = some v) : (k, v) ∈ l := by
  induction l with
  | nil => simp [lget] at h
  | cons q t ih =>
      obtain ⟨a, b⟩ := q
      by_cases ha : a = k
      · subst ha
        simp [lget] at h
        simp [h]
      · simp [lget, ha] at h
        simp [ih h]

/-- Updating a present key keeps the number of entries. -/
theorem length_lset_of_present {α β : Type} [DecidableEq α]
    (l : List (α × β)) (k : α) (v v0 : β) (h : lget l k = some v0) :
    (lset l k v).length = l.length := by
  induction l with
  | nil => simp [lget] at h
  | cons q t ih =>
      obtain ⟨a, b⟩ := q
      by_cases ha : a = k
      · simp [lset, ha]
      · simp [lget, ha] at h
        simp [lset, ha, ih h]

/-- `GAMES_LIST_SUFFIX` (line 37). -/
def GAMES_LIST_SUFFIX : String := "_GamesList"

/-- `getGamesListId(playerId)` = `String(playerId) + GAMES_LIST_SUFFIX`
(lines 39-42); `String(undefined)` is the string `undefined`. -/
def getGamesListId (playerId : Option String) : String :=
  (playerId.getD "undefined") ++ GAMES_LIST_SUFFIX

/-- The `LeaveReason` table (lines 179-182), mapping leave-type names to
reason-code strings. -/
def LeaveReason : List (String × String) :=
  [("ClientDisconnect", "0"), ("ClientTimeoutDisconnect", "1"),
   ("ManagedDisconnect", "2"), ("ServerDisconnect", "3"),
   ("TimeoutDisconnect", "4"), ("ConnectTimeout", "5"),
   ("SwitchRoom", "100"), ("LeaveRequest", "101"),
   ("PlayerTtlTimedOut", "102"), ("PeerLastTouchTimedout", "103"),
   ("PluginRequest", "104"), ("PluginFailedJoin", "105")]

/-- The reason codes categorically rejected by `checkWebhookArgs`
(line 294: `['1', '100', '103', '105'].indexOf(args.Reason) > -1`). -/
def rejectedReasons : List String := ["1", "100", "103", "105"]

/-- The common-identity part of `checkWebhookArgs` (lines 202-224): for all
types but `Close`/`Save` it requires `ActorNr`, `UserId` (equal to the
authenticated `currentPlayerId`) and a `Username` or `Nickname`; for
`Close`/`Save` it requires `ActorCount` and, when `args.State2.ActorList` is
present, that its length equals `ActorCount`. -/
def checkCommonArgs (currentPlayerId : Option String) (args : WebhookArgs) :
    Except JsErr Unit :=
  if args.EvType ≠ some "Close" ∧ args.EvType ≠ some "Save" then
    if args.ActorNr.isNone then .error (.photon 1 "Missing argument: ActorNr")
    else if args.UserId.isNone then .error (.photon 1 "Missing argument: UserId")
    else if args.UserId ≠ currentPlayerId then
      .error (.photon 3 ("currentPlayerId=" ++ currentPlayerId.getD "undefined"
        ++ " does not match UserId"))
    else if args.Username.isNone ∧ args.Nickname.isNone then
      .error (.photon 1 "Missing argument: Username/Nickname")
    else .ok ()
  else
    if args.ActorCount.isNone then
      .error (.photon 1 "Missing argument: ActorCount")
    else
      match args.State2ActorList with
      | some (some n) =>
          if some (n : Int) ≠ args.ActorCount then
            .error (.photon 2 "ActorCount does not match ActorList.count")
          else .ok ()
      | _ => .ok ()

/-- The leave-family rules of the `default` branch of the `switch` of
`checkWebhookArgs` (lines 284-296), entered with the enumeration code of the
leave type: presence of `IsInactive` and `Reason`, agreement of `Reason` with
the code, and the categorical rejection of the reason codes in
`rejectedReasons`. -/
def checkLeaveTypeArgs (args : WebhookArgs) (code : String) : Except JsErr Unit :=
  if args.IsInactive.isNone then
    .error (.photon 1 "Missing argument: IsInactive")
  else if args.Reason.isNone then
    .error (.photon 1 "Missing argument: Reason")
  else if some code ≠ args.Reason then
    .error (.photon 2 "Reason code does not match Leave Type string")
  else if rejectedReasons.contains (args.Reason.getD "undefined") then
    .error (.photon 2 "Unexpected LeaveReason")
  else .ok ()

/-- The per-type `switch` of `checkWebhookArgs` (lines 225-301), written as
the equivalent chain of equality tests on the discriminator; the `default`
branch handles the leave-family types through membership in `LeaveReason`
and `checkLeaveTypeArgs`. -/
def checkTypeArgs (args : WebhookArgs) : Except JsErr Unit :=
  if args.EvType = some "Load" then
    if args.CreateIfNotExists.isNone then
      .error (.photon 1 "Missing argument: CreateIfNotExists")
    else .ok ()
  else if args.EvType = some "Create" then
    if args.CreateOptions.isNone then
      .error (.photon 1 "Missing argument: CreateOptions")
    else if args.ActorNr ≠ some 1 then
      .error (.photon 2 "ActorNr != 1 and Type == Create")
    else .ok ()
  else if args.EvType = some "Join" then .ok ()
  else if args.EvType = some "Player" then
    if args.TargetActor.isNone then
      .error (.photon 1 "Missing argument: TargetActor")
    else if args.Properties.isNone then
      .error (.photon 1 "Missing argument: Properties")
    else if args.Username.isSome ∧ args.State.isNone then
      .error (.photon 1 "Missing argument: State")
    else .ok ()
  else if args.EvType = some "Game" then
    if args.Properties.isNone then
      .error (.photon 1 "Missing argument: Properties")
    else if args.Username.isSome ∧ args.State.isNone then
      .error (.photon 1 "Missing argument: State")
    else .ok ()
  else if args.EvType = some "Event" then
    if args.Data.isNone then .error (.photon 1 "Missing argument: Data")
    else if args.Username.isSome ∧ args.State.isNone then
      .error (.photon 1 "Missing argument: State")
    else .ok ()
  else if args.EvType = some "Save" then
    if args.State.isNone then .error (.photon 1 "Missing argument: State")
    -- JS `args.ActorCount <= 0` is false when ActorCount is undefined (NaN comparison)
    else if args.ActorCount.any (fun ac => ac ≤ 0) then
      .error (.photon 2 "ActorCount <= 0 and Type == Save")
    else .ok ()
  else if args.EvType = some "Close" then
    -- JS `args.ActorCount !== 0` is true when ActorCount is undefined
    if args.ActorCount ≠ some 0 then
      .error (.photon 2 "ActorCount != 0 and Type == Close")
    else .ok ()
  else if args.EvType = some "Leave" then
    .error (.photon 2 "Deprecated forward plugin webhook!")
  else
    -- default: LeaveReason.hasOwnProperty of the type string
    match lget LeaveReason (args.EvType.getD "undefined") with
    | some code => checkLeaveTypeArgs args code
    | none =>
        .error (.photon 2 ("Unexpected Type:" ++ args.EvType.getD "undefined"))

/-- `checkWebhookArgs(args, timestamp)` (lines 184-302): the five common
presence checks, then the identity/count block, then the per-type switch.
The timestamp parameter is only stored into the (unmodelled) audit record of
the raised `PhotonException`, so it is dropped here. -/
def checkWebhookArgs (currentPlayerId : Option String) (args : WebhookArgs) :
    Except JsErr Unit :=
  if args.AppId.isNone then .error (.photon 1 "Missing argument: AppId")
  else if args.AppVersion.isNone then
    .error (.photon 1 "Missing argument: AppVersion")
  else if args.Region.isNone then .error (.photon 1 "Missing argument: Region")
  else if args.GameId.isNone then .error (.photon 1 "Missing argument: GameId")
  else if args.EvType.isNone then .error (.photon 1 "Missing argument: Type")
  else
    match checkCommonArgs currentPlayerId args with
    | .error e => .error e
    | .ok () => checkTypeArgs args

/-- If a key is found in a games list restricted to a single game id, that key
is the game id: `getSharedGroupData(id, [key])` returns a mapping holding at
most the requested key. -/
theorem lget_filter_restrict {β : Type} (l : List (String × β)) (g k : String)
    (v : β) (h : lget (l.filter (fun p => p.1 = g)) k = some v) : k = g := by
  induction l with
  | nil => simp [lget] at h
  | cons p t ih =>
      obtain ⟨a, b⟩ := p
      by_cases ha : a = g
      · subst ha
        by_cases hk : a = k
        · subst hk; rfl
        · simp [List.filter_cons, lget, hk] at h
          exact ih h
      · simp [List.filter_cons, ha] at h
        exact ih h

/-- The fresh room record `onGameCreated` builds (lines 396-404): the `Env`
snapshot, the supplied `CreateOptions` as `RoomOptions`, the `Creation`
stamp, a single active actor `1` for the caller and `NextActorNr = 2`. -/
def newRoomData (g : ScriptEnv) (args : WebhookArgs) (timestamp : String) :
    RoomData :=
  { Env := { Region := args.Region, AppVersion := args.AppVersion,
             AppId := args.AppId, TitleId := g.titleId,
             CloudScriptVersion := g.version, CloudScriptRevision := g.revision,
             PlayFabServerVersion := g.serverVersion,
             WebhooksVersion := if args.Nickname.isNone then "1.0" else "1.2" }
    RoomOpts := args.CreateOptions
    Creation := { Timestamp := timestamp, UserId := args.UserId,
                  EvType := args.EvType }
    Actors := [(1, { UserId := args.UserId, Inactive := false })]
    NextActorNr := 2 }

/-- `onGameCreated(args, timestamp)` (lines 380-409).  The create conflict of
`createSharedGroup` (`InvalidSharedGroupId`) is caught and only changes the
informational message, so the room write always proceeds;
`updateSharedGroupData` only touches the five freshly-built fields, so any
other fields of a pre-existing record survive an idempotent re-create.  The
games-list write (`updateSharedGroupEntry`) throws when the caller's games
list group does not exist, after the room record has already been written. -/
def onGameCreated (g : ScriptEnv) (currentPlayerId : Option String)
    (args : WebhookArgs) (timestamp : String) (st : Store) :
    Store × Except JsErr Unit :=
  let gameId := args.GameId.getD "undefined"
  let data := newRoomData g args timestamp
  let merged : RoomData :=
    match lget st.rooms gameId with
    | some old => { old with Env := data.Env,
                             RoomOpts := data.RoomOpts,
                             Creation := data.Creation,
                             Actors := data.Actors,
                             NextActorNr := data.NextActorNr }
    | none => data
  let st1 : Store := { st with rooms := lset st.rooms gameId merged }
  match lget st1.lists (getGamesListId currentPlayerId) with
  | none => (st1, .error (.apiError "InvalidSharedGroupId"))
  | some l =>
      let l2 := lset l gameId (.full data)
      ({ st1 with lists := lset st1.lists (getGamesListId currentPlayerId) l2 },
       .ok ())

/-- The create-or-fail tail of the `Load` path (lines 435-442), entered with a
proof that `data.State` is undefined — which `lget_filter_restrict` shows is
the case on every path, so the load-event/return-state remainder of the
source (lines 443-449) is unreachable and has no counterpart here. -/
def roomCreatedLoadTail (g : ScriptEnv) (currentPlayerId : Option String)
    (args : WebhookArgs) (timestamp : String) (st : Store) (m : GamesList)
    (_hm : lget m "State" = none) : Store × Except JsErr WebhookResult :=
  if args.CreateIfNotExists = some false then
    (st, .error (.photon 5 ("Room=" ++ args.GameId.getD "undefined" ++ " not found")))
  else
    match onGameCreated g currentPlayerId args timestamp st with
    | (st1, .error e) => (st1, .error e)
    | (st1, .ok ()) =>
        (st1, .ok { ResultCode := 0, Message := "OK", State := some "" })

/-- The body of the `try` block of `handlers.RoomCreated` (lines 424-452).
On the `Load` path, `data = getSharedGroupEntry(getGamesListId(currentPlayerId),
args.GameId)` is the one-key mapping `{args.GameId: entry}` returned by
`getSharedGroupData(id, [key])`, not the entry itself; `data.Creation` is
therefore only defined when the game id is itself the string `Creation`, and
`data.Creation.UserId` is undefined even then (games-list entries have no
`UserId` property), so the re-read through `getGamesListId(undefined)` happens
whenever `currentPlayerId` is defined. -/
def roomCreatedTry (g : ScriptEnv) (currentPlayerId : Option String)
    (args : WebhookArgs) (timestamp : String) (st : Store) :
    Store × Except JsErr WebhookResult :=
  match checkWebhookArgs currentPlayerId args with
  | .error e => (st, .error e)
  | .ok () =>
    if args.EvType = some "Create" then
      match onGameCreated g currentPlayerId args timestamp st with
      | (st1, .error e) => (st1, .error e)
      | (st1, .ok ()) => (st1, .ok { ResultCode := 0, Message := "OK" })
    else if args.EvType = some "Load" then
      let gameId := args.GameId.getD "undefined"
      match lget st.lists (getGamesListId currentPlayerId) with
      | none => (st, .error (.apiError "InvalidSharedGroupId"))
      | some l =>
        match hC : lget (l.filter (fun p => p.1 = gameId)) "Creation" with
        | none =>
            (st, .error (.typeError "Cannot read property UserId of undefined"))
        | some _e =>
          match currentPlayerId with
          | some u =>
            -- undefined !== currentPlayerId, so re-read through
            -- getGamesListId(data.Creation.UserId) = getGamesListId(undefined)
            match lget st.lists (getGamesListId none) with
            | none => (st, .error (.apiError "InvalidSharedGroupId"))
            | some l2 =>
                roomCreatedLoadTail g (some u) args timestamp st
                  (l2.filter (fun p => p.1 = gameId))
                  (by
                    cases hS : lget (l2.filter (fun p => p.1 = gameId)) "State" with
                    | none => rfl
                    | some v =>
                        have h1 := lget_filter_restrict l2 gameId "State" v hS
                        have h2 := lget_filter_restrict l gameId "Creation" _e hC
                        rw [← h2] at h1
                        exact absurd h1 (by decide))
          | none =>
            -- undefined === undefined: keep the first mapping
                roomCreatedLoadTail g none args timestamp st
                  (l.filter (fun p => p.1 = gameId))
                  (by
                    cases hS : lget (l.filter (fun p => p.1 = gameId)) "State" with
                    | none => rfl
                    | some v =>
                        have h1 := lget_filter_restrict l gameId "State" v hS
                        have h2 := lget_filter_restrict l gameId "Creation" _e hC
                        rw [← h2] at h1
                        exact absurd h1 (by decide))
    else
      (st, .error (.photon 2 ("Wrong PathCreate Type="
        ++ args.EvType.getD "undefined")))

/-- `handlers.RoomCreated` (lines 420-459).  The debug log on line 422 reads
`args.CreateOptions.MaxPlayers` before the `try` block opens, so when
`CreateOptions` is absent the `TypeError` escapes the handler uncaught; the
result is therefore wrapped in `Except`, with `.error` meaning an exception
crossed the handler boundary. -/
def handlersRoomCreated (g : ScriptEnv) (currentPlayerId : Option String)
    (args : WebhookArgs) (timestamp : String) (st : Store) :
    Store × Except JsErr WebhookResult :=
  match args.CreateOptions with
  | none => (st, .error (.typeError "Cannot read property MaxPlayers of undefined"))
  | some _ =>
    match roomCreatedTry g currentPlayerId args timestamp st with
    | (st1, .ok r) => (st1, .ok r)
    | (st1, .error e) => (st1, .ok (errResult e))

/-- The shared tail of `handlers.RoomJoined` (lines 493-499): append the join
event, write the record back (the room group exists, it was just read), and
refresh the caller's games-list entry with `{Env, Creation, ActorNr}`. -/
def roomJoinedCommit (currentPlayerId : Option String) (args : WebhookArgs)
    (timestamp : String) (st : Store) (gameId : String) (data : RoomData) :
    Store × Except JsErr WebhookResult :=
  let data2 := { data with JoinEvents := some (lset (data.JoinEvents.getD [])
      timestamp { ActorNr := args.ActorNr, UserId := args.UserId }) }
  let st1 : Store := { st with rooms := lset st.rooms gameId data2 }
  match lget st1.lists (getGamesListId currentPlayerId) with
  | none => (st1, .error (.apiError "InvalidSharedGroupId"))
  | some l =>
      let l2 := lset l gameId (.ref data2.Env data2.Creation args.ActorNr)
      ({ st1 with lists := lset st1.lists (getGamesListId currentPlayerId) l2 },
       .ok { ResultCode := 0, Message := "OK" })

/-- The body of the `try` of `handlers.RoomJoined` (lines 466-499).  The
rejoin branch reads `data.ActiveActors[args.ActorNr]`; no `ActiveActors`
field is ever written anywhere in the script, so that is an index access on
`undefined` and throws before any of the rejoin updates run.  The capacity
check of the new-join branch reads `args.RoomOptions.MaxPlayers` from the
event, not `data.RoomOptions` from the record. -/
def roomJoinedRun (currentPlayerId : Option String) (args : WebhookArgs)
    (timestamp : String) (st : Store) : Store × Except JsErr WebhookResult :=
  match checkWebhookArgs currentPlayerId args with
  | .error e => (st, .error e)
  | .ok () =>
    let gameId := args.GameId.getD "undefined"
    match lget st.rooms gameId with
    | none => (st, .error (.apiError "InvalidSharedGroupId"))
    | some data =>
      if args.EvType ≠ some "Join" then
        (st, .error (.photon 2 ("Wrong PathJoin Type="
          ++ args.EvType.getD "undefined")))
      else
        match data.RoomOpts with
        | none => (st, .error (.typeError "Cannot read property PlayerTTL of undefined"))
        | some ro =>
          match args.ActorNr with
          | none =>
              -- with ActorNr undefined both `NextActorNr > args.ActorNr` and
              -- `NextActorNr === args.ActorNr` are false (NaN comparison)
              (st, .error (.photon 2 "Unexpected ActorNr"))
          | some actorNr =>
            if ro.PlayerTTL ≠ 0 ∧ data.NextActorNr > actorNr then
              (st, .error (.typeError ("Cannot read property "
                ++ toString actorNr ++ " of undefined")))
            else if data.NextActorNr = actorNr then
              match args.RoomOpts with
              | none => (st, .error (.typeError "Cannot read property MaxPlayers of undefined"))
              | some aro =>
                if data.Actors.length = aro.MaxPlayers then
                  (st, .error (.photon 2 "Actors overflow"))
                else
                  roomJoinedCommit currentPlayerId args timestamp st gameId
                    { data with
                      Actors := lset data.Actors actorNr
                        { UserId := args.UserId, Inactive := false },
                      NextActorNr := data.NextActorNr + 1 }
            else (st, .error (.photon 2 "Unexpected ActorNr"))

/-- `handlers.RoomJoined` (lines 462-506) with its boundary try/catch. -/
def handlersRoomJoined (currentPlayerId : Option String) (args : WebhookArgs)
    (timestamp : String) (st : Store) : Store × WebhookResult :=
  match roomJoinedRun currentPlayerId args timestamp st with
  | (st1, .ok r) => (st1, r)
  | (st1, .error e) => (st1, errResult e)

/-- The shared tail of `handlers.RoomLeft` (lines 537-542): append the leave
event (recording `args.Inactive` as `CanRejoin`) and write the record back. -/
def roomLeftCommit (args : WebhookArgs) (timestamp : String) (st : Store)
    (gameId : String) (data : RoomData) : Store × Except JsErr WebhookResult :=
  let data2 := { data with LeaveEvents := some (lset (data.LeaveEvents.getD [])
      timestamp { ActorNr := args.ActorNr, UserId := args.UserId,
                  CanRejoin := args.Inactive }) }
  ({ st with rooms := lset st.rooms gameId data2 },
   .ok { ResultCode := 0, Message := "OK" })

/-- The body of the `try` of `handlers.RoomLeft` (lines 513-542).  Note that
line 525 compares `args.Type` (a leave-type NAME such as
`PlayerTtlTimedOut`) against `LeaveReason.PlayerTtlTimedOut` (the reason CODE
string `102`), so the comparison is true for every type that passes the
`LeaveReason.hasOwnProperty` gate. -/
def roomLeftRun (currentPlayerId : Option String) (args : WebhookArgs)
    (timestamp : String) (st : Store) : Store × Except JsErr WebhookResult :=
  match checkWebhookArgs currentPlayerId args with
  | .error e => (st, .error e)
  | .ok () =>
    let gameId := args.GameId.getD "undefined"
    match lget st.rooms gameId with
    | none => (st, .error (.apiError "InvalidSharedGroupId"))
    | some data =>
      if (lget LeaveReason (args.EvType.getD "undefined")).isNone then
        (st, .error (.photon 2 ("Wrong PathLeave Type="
          ++ args.EvType.getD "undefined")))
      else
        match args.ActorNr with
        | none =>
            -- data.Actors.hasOwnProperty(undefined) is false
            (st, .error (.photon 2 "No ActorNr inside the room"))
        | some actorNr =>
          match lget data.Actors actorNr with
          | none => (st, .error (.photon 2 "No ActorNr inside the room"))
          | some actor =>
            if args.EvType ≠ lget LeaveReason "PlayerTtlTimedOut"
                ∧ actor.Inactive = true then
              (st, .error (.photon 2 "Inactive actors cant leave"))
            else if actor.UserId ≠ args.UserId then
              (st, .error (.photon 2 "Leaving UserId is different from joined"))
            else if args.Inactive = some true then
              let a2 := lset data.Actors actorNr { actor with Inactive := true }
              roomLeftCommit args timestamp st gameId { data with Actors := a2 }
            else
              match lget st.lists (getGamesListId currentPlayerId) with
              | none => (st, .error (.apiError "InvalidSharedGroupId"))
              | some l =>
                  let nl := lset st.lists (getGamesListId currentPlayerId) (lerase l gameId)
                  let a2 := lerase data.Actors actorNr
                  roomLeftCommit args timestamp { st with lists := nl }
                    gameId { data with Actors := a2 }

/-- `handlers.RoomLeft` (lines 509-549) with its boundary try/catch. -/
def handlersRoomLeft (currentPlayerId : Option String) (args : WebhookArgs)
    (timestamp : String) (st : Store) : Store × WebhookResult :=
  match roomLeftRun currentPlayerId args timestamp st with
  | (st1, .ok r) => (st1, r)
  | (st1, .error e) => (st1, errResult e)

/-- The body of the `try` of `handlers.RoomClosed` (lines 557-579);
`currentPlayerId` is undefined when this handler runs.  `Close` deletes the
creator's games-list entry; `Save` appends a save event, stores the supplied
`State` into the record and writes the whole record into the creator's
games-list entry.  Both paths end by deleting the room's shared group. -/
def roomClosedRun (currentPlayerId : Option String) (args : WebhookArgs)
    (timestamp : String) (st : Store) : Store × Except JsErr WebhookResult :=
  match checkWebhookArgs currentPlayerId args with
  | .error e => (st, .error e)
  | .ok () =>
    let gameId := args.GameId.getD "undefined"
    match lget st.rooms gameId with
    | none => (st, .error (.apiError "InvalidSharedGroupId"))
    | some data =>
      if some (data.Actors.length : Int) ≠ args.ActorCount then
        (st, .error (.photon 6 "Actors count does not match"))
      else if args.EvType = some "Close" then
        match lget st.lists (getGamesListId data.Creation.UserId) with
        | none => (st, .error (.apiError "InvalidSharedGroupId"))
        | some l =>
            let nl := lset st.lists (getGamesListId data.Creation.UserId) (lerase l gameId)
            let st1 : Store := { st with lists := nl }
            ({ st1 with rooms := lerase st1.rooms gameId },
             .ok { ResultCode := 0, Message := "OK" })
      else if args.EvType = some "Save" then
        let data1 := { data with
          SaveEvents := some (lset (data.SaveEvents.getD []) timestamp
            { ActorCount := args.ActorCount }),
          State := args.State }
        match lget st.lists (getGamesListId data.Creation.UserId) with
        | none => (st, .error (.apiError "InvalidSharedGroupId"))
        | some l =>
            let nl := lset st.lists (getGamesListId data.Creation.UserId) (lset l gameId (.full data1))
            let st1 : Store := { st with lists := nl }
            ({ st1 with rooms := lerase st1.rooms gameId },
             .ok { ResultCode := 0, Message := "OK" })
      else
        (st, .error (.photon 2 ("Wrong PathClose Type="
          ++ args.EvType.getD "undefined")))

/-- `handlers.RoomClosed` (lines 553-586) with its boundary try/catch. -/
def handlersRoomClosed (currentPlayerId : Option String) (args : WebhookArgs)
    (timestamp : String) (st : Store) : Store × WebhookResult :=
  match roomClosedRun currentPlayerId args timestamp st with
  | (st1, .ok r) => (st1, r)
  | (st1, .error e) => (st1, errResult e)

/-- Script globals used by the concrete scenarios. -/
def g0 : ScriptEnv :=
  { titleId := "T", version := "1", revision := "1", serverVersion := "1" }

/-- An `Env` snapshot as produced by a create in region EU. -/
def env0 : EnvData :=
  { Region := some "EU", AppVersion := some "1.0", AppId := some "A",
    TitleId := "T", CloudScriptVersion := "1", CloudScriptRevision := "1",
    PlayFabServerVersion := "1", WebhooksVersion := "1.2" }

/-- A `Creation` stamp by user U1. -/
def creation0 : CreationData :=
  { Timestamp := "t0", UserId := some "U1", EvType := some "Create" }

/-- The common required envelope fields shared by the concrete events. -/
def baseArgs : WebhookArgs :=
  { AppId := some "A", AppVersion := some "1.0", Region := some "EU" }

/-- The empty store: no shared groups exist. -/
def store0 : Store := { rooms := [], lists := [] }

/-- A two-player room at its stored capacity (`MaxPlayers = 2`, two active
actors, `NextActorNr = 3`), player TTL disabled. -/
def room_c1 : RoomData :=
  { Env := env0,
    RoomOpts := some { MaxPlayers := 2, PlayerTTL := 0, CheckUserOnJoin := false },
    Creation := creation0,
    Actors := [(1, { UserId := some "U1", Inactive := false }),
               (2, { UserId := some "U2", Inactive := false })],
    NextActorNr := 3 }

/-- Store holding `room_c1` under G1, with U3's games list initialised. -/
def store_c1 : Store :=
  { rooms := [("G1", room_c1)], lists := [("U3_GamesList", [])] }

/-- A new join by U3 at `ActorNr = NextActorNr = 3` whose event-supplied
`RoomOptions` carries `MaxPlayers = 4`, differing from the record's 2. -/
def join_c1 : WebhookArgs :=
  { baseArgs with
      GameId := some "G1"
      EvType := some "Join"
      ActorNr := some 3
      UserId := some "U3"
      Nickname := some "n3"
      RoomOpts := some { MaxPlayers := 4, PlayerTTL := 0, CheckUserOnJoin := false } }

/-- A room with nonzero player TTL whose single actor 1 (user U1) is
inactive, as left behind by a recoverable leave. -/
def room_c2 : RoomData :=
  { Env := env0,
    RoomOpts := some { MaxPlayers := 2, PlayerTTL := 300, CheckUserOnJoin := true },
    Creation := creation0,
    Actors := [(1, { UserId := some "U1", Inactive := true })],
    NextActorNr := 2 }

/-- Store holding `room_c2` under G1, with U1's games list initialised. -/
def store_c2 : Store :=
  { rooms := [("G1", room_c2)], lists := [("U1_GamesList", [])] }

/-- U1's rejoin of its own inactive slot 1: same actor number, same user. -/
def join_c2 : WebhookArgs :=
  { baseArgs with
      GameId := some "G1"
      EvType := some "Join"
      ActorNr := some 1
      UserId := some "U1"
      Nickname := some "n1" }

/-- A well-formed `Load` event as the relay sends it: `CreateIfNotExists`
present, no `CreateOptions` (those accompany only `Create` events). -/
def load_c3 : WebhookArgs :=
  { baseArgs with
      GameId := some "G1"
      EvType := some "Load"
      ActorNr := some 1
      UserId := some "U1"
      Nickname := some "n1"
      CreateIfNotExists := some true }

/-- A four-player room where actor 2 (user U2) is active. -/
def room_c4 : RoomData :=
  { Env := env0,
    RoomOpts := some { MaxPlayers := 4, PlayerTTL := 300, CheckUserOnJoin := false },
    Creation := creation0,
    Actors := [(1, { UserId := some "U1", Inactive := false }),
               (2, { UserId := some "U2", Inactive := false })],
    NextActorNr := 3 }

/-- Store holding `room_c4` under G1 with U2's games-list entry present. -/
def store_c4 : Store :=
  { rooms := [("G1", room_c4)],
    lists := [("U2_GamesList", [("G1", .ref env0 creation0 (some 2))])] }

/-- U2's recoverable disconnect (`IsInactive`/`Inactive` true, reason 0). -/
def leave_c4a : WebhookArgs :=
  { baseArgs with
      GameId := some "G1"
      EvType := some "ClientDisconnect"
      ActorNr := some 2
      UserId := some "U2"
      Nickname := some "n2"
      IsInactive := some true
      Inactive := some true
      Reason := some "0" }

/-- U2's unrecoverable disconnect: as `leave_c4a` but `Inactive` false. -/
def leave_c4b : WebhookArgs :=
  { leave_c4a with Inactive := some false }

/-- A player-TTL-timeout leave of the already-inactive slot 1 of `room_c2`:
type `PlayerTtlTimedOut` with its matching reason code `102`. -/
def leave_c5 : WebhookArgs :=
  { baseArgs with
      GameId := some "G1"
      EvType := some "PlayerTtlTimedOut"
      ActorNr := some 1
      UserId := some "U1"
      Nickname := some "n1"
      IsInactive := some true
      Inactive := some true
      Reason := some "102" }

/-- A `Close` with the wrong actor count 1 against `room_c1` (roster 2). -/
def close_c7 : WebhookArgs :=
  { baseArgs with
      GameId := some "G1"
      EvType := some "Close"
      ActorCount := some 1 }

/-- A `Close` with actor count 0 against `room_c1` (roster 2), hitting the
roster-size comparison of the close handler itself. -/
def close_c7b : WebhookArgs :=
  { close_c7 with ActorCount := some 0 }

/-- U1's `Create` of room G1 with capacity 2 and no TTL. -/
def create_c8 : WebhookArgs :=
  { baseArgs with
      GameId := some "G1"
      EvType := some "Create"
      ActorNr := some 1
      UserId := some "U1"
      Nickname := some "n1"
      CreateOptions := some { MaxPlayers := 2, PlayerTTL := 0, CheckUserOnJoin := false } }

/-- The initial store for the save/load scenario: no rooms, U1's games list
initialised. -/
def store_c8 : Store := { rooms := [], lists := [("U1_GamesList", [])] }

/-- The store after U1's `Create` of G1. -/
def c8s1 : Store := (handlersRoomCreated g0 (some "U1") create_c8 "t1" store_c8).1

/-- A `Save` of G1 carrying the opaque payload `SAVED-STATE`. -/
def save_c8 : WebhookArgs :=
  { baseArgs with
      GameId := some "G1"
      EvType := some "Save"
      ActorCount := some 1
      State := some "SAVED-STATE" }

/-- The store after the `Save`: the room group is deleted and the full
record, including the saved state, lives in U1's games-list entry. -/
def c8s2 : Store := (handlersRoomClosed none save_c8 "t2" c8s1).1

/-- U1's `Load` of G1, with `CreateOptions` additionally supplied so that the
pre-try `args.CreateOptions.MaxPlayers` access of `RoomCreated` succeeds. -/
def load_c8 : WebhookArgs :=
  { baseArgs with
      GameId := some "G1"
      EvType := some "Load"
      ActorNr := some 1
      UserId := some "U1"
      Nickname := some "n1"
      CreateIfNotExists := some false
      CreateOptions := some { MaxPlayers := 2, PlayerTTL := 0, CheckUserOnJoin := false } }

/-- U1's `Load` of G1 exactly as the relay sends it (no `CreateOptions`). -/
def load_c8n : WebhookArgs := { load_c8 with CreateOptions := none }

/-- The saved `State` of the full games-list entry for a room, if any. -/
def savedStateOf (st : Store) (pid : Option String) (gid : String) :
    Option (Option String) :=
  match lget ((lget st.lists (getGamesListId pid)).getD []) gid with
  | some (.full d) => some d.State
  | _ => none

/-- A leave-family event of type `t` with reason `r` and all common fields
present, used to probe the validator's leave rules. -/
def leave_c9 (t r : String) : WebhookArgs :=
  { baseArgs with
      GameId := some "G1"
      EvType := some t
      ActorNr := some 1
      UserId := some "U1"
      Nickname := some "n1"
      IsInactive := some true
      Reason := some r }

/-- An empty-roster room (both players already left unrecoverably). -/
def room_c10 : RoomData :=
  { Env := env0,
    RoomOpts := some { MaxPlayers := 2, PlayerTTL := 0, CheckUserOnJoin := false },
    Creation := creation0,
    Actors := [],
    NextActorNr := 3 }

/-- Store holding the empty `room_c10` with the creator's games list. -/
def store_c10 : Store :=
  { rooms := [("G1", room_c10)],
    lists := [("U1_GamesList", [("G1", .full room_c10)])] }

/-- A `Close` with actor count 0, matching the empty roster of `room_c10`. -/
def close_c10 : WebhookArgs :=
  { baseArgs with
      GameId := some "G1"
      EvType := some "Close"
      ActorCount := some 0 }

/-- C1.  The claim reads: on a room whose roster size equals the record's
`RoomOptions.MaxPlayers`, a Join at `ActorNr = NextActorNr` is rejected and
the record is unchanged, and new actors are only inserted strictly below
capacity.  The code instead compares the roster size against
`args.RoomOptions.MaxPlayers` taken from the event (cloudscript.js line 485):
on `room_c1`, whose 2-actor roster equals its stored `MaxPlayers = 2`, the
join `join_c1` carrying `MaxPlayers = 4` succeeds with result code 0, inserts
actor 3 and increments `NextActorNr` to 4, overflowing the stored capacity. -/
theorem c1_capacity_check_reads_event_options :
    room_c1.RoomOpts =
      some { MaxPlayers := 2, PlayerTTL := 0, CheckUserOnJoin := false }
    ∧ room_c1.Actors.length = 2
    ∧ join_c1.ActorNr = some room_c1.NextActorNr
    ∧ (handlersRoomJoined (some "U3") join_c1 "t1" store_c1).2
        = { ResultCode := 0, Message := "OK" }
    ∧ ((lget (handlersRoomJoined (some "U3") join_c1 "t1" store_c1).1.rooms
        "G1").map (fun d => (d.Actors.length, d.NextActorNr))) = some (3, 4) := by
  decide

/-- C2.  The claim reads: after a recoverable leave, a Join with the same
actor number and user id succeeds and reactivates the slot.  The rejoin
branch of `handlers.RoomJoined` (line 476) reads
`data.ActiveActors[args.ActorNr]`, but no `ActiveActors` field is ever
written, so the rejoin `join_c2` of the inactive slot 1 of `room_c2` throws a
`TypeError`, is caught at the boundary and returns result code -1 with the
store unchanged (the slot stays inactive). -/
theorem c2_rejoin_throws_on_activeactors :
    room_c2.RoomOpts =
      some { MaxPlayers := 2, PlayerTTL := 300, CheckUserOnJoin := true }
    ∧ lget room_c2.Actors 1 = some { UserId := some "U1", Inactive := true }
    ∧ join_c2.ActorNr = some 1 ∧ join_c2.UserId = some "U1"
    ∧ handlersRoomJoined (some "U1") join_c2 "t1" store_c2
        = (store_c2,
           { ResultCode := -1,
             Message := "TypeError: Cannot read property 1 of undefined" }) := by
  decide

/-- C3.  The claim reads: every handler returns a `{resultCode, message}`
result and never lets an exception propagate.  `handlers.RoomCreated`
evaluates `args.CreateOptions.MaxPlayers` in its debug log (line 422) before
the `try` block opens, so the validator-accepted `Load` event `load_c3`
(which, like every relay `Load`, carries no `CreateOptions`) makes the
handler throw an uncaught `TypeError` past its boundary. -/
theorem c3_roomcreated_throws_before_try :
    checkWebhookArgs (some "U1") load_c3 = .ok ()
    ∧ handlersRoomCreated g0 (some "U1") load_c3 "t1" store0
        = (store0,
           .error (.typeError "Cannot read property MaxPlayers of undefined")) := by
  decide

/-- C5.  The claim reads: an already-inactive slot may leave when the reason
is the player-TTL timeout.  Line 525 compares `args.Type` (the type name
`PlayerTtlTimedOut`) with `LeaveReason.PlayerTtlTimedOut` (the code string
`102`), which never match, so the TTL-timeout leave `leave_c5` of the
inactive slot 1 of `room_c2` is rejected with `Inactive actors cant leave`
and the store is unchanged. -/
theorem c5_ttl_timeout_of_inactive_slot_rejected :
    leave_c5.EvType = some "PlayerTtlTimedOut"
    ∧ leave_c5.Reason = lget LeaveReason "PlayerTtlTimedOut"
    ∧ lget room_c2.Actors 1 = some { UserId := some "U1", Inactive := true }
    ∧ handlersRoomLeft (some "U1") leave_c5 "t1" store_c2
        = (store_c2,
           { ResultCode := 2, Message := "Inactive actors cant leave" }) := by
  decide

/-- C8.  The claim reads: a `Save` followed by a `Load` on the same room id
returns the saved payload.  The `Save` succeeds and persists the payload into
the creator's games-list entry, but `getSharedGroupEntry` returns the one-key
mapping `{gameId: entry}` rather than the entry, so the `Load` dereferences
`data.Creation.UserId` on `undefined`: with `CreateOptions` supplied the
`TypeError` is caught and the load returns -1 with no state; without them
(as the relay sends it) the handler throws uncaught (line 422).  Either way
the saved payload is never returned. -/
theorem c8_save_then_load_never_returns_state :
    (handlersRoomCreated g0 (some "U1") create_c8 "t1" store_c8).2
        = .ok { ResultCode := 0, Message := "OK" }
    ∧ (handlersRoomClosed none save_c8 "t2" c8s1).2
        = { ResultCode := 0, Message := "OK" }
    ∧ savedStateOf c8s2 (some "U1") "G1" = some (some "SAVED-STATE")
    ∧ handlersRoomCreated g0 (some "U1") load_c8 "t3" c8s2
        = (c8s2,
           .ok { ResultCode := -1,
                 Message := "TypeError: Cannot read property UserId of undefined" })
    ∧ handlersRoomCreated g0 (some "U1") load_c8n "t3" c8s2
        = (c8s2,
           .error (.typeError "Cannot read property MaxPlayers of undefined")) := by
  decide

/-- C9 counterexample.  The claim reads: exactly three specific reason codes
are categorically rejected.  The validator's rejection list
`['1', '100', '103', '105']` holds four distinct codes, and each of the four
is reachable: the matching leave event of each corresponding type fails with
`Unexpected LeaveReason`. -/
theorem c9_counterexample_four_rejected_codes :
    checkWebhookArgs (some "U1") (leave_c9 "ClientTimeoutDisconnect" "1")
        = .error (.photon 2 "Unexpected LeaveReason")
    ∧ checkWebhookArgs (some "U1") (leave_c9 "SwitchRoom" "100")
        = .error (.photon 2 "Unexpected LeaveReason")
    ∧ checkWebhookArgs (some "U1") (leave_c9 "PeerLastTouchTimedout" "103")
        = .error (.photon 2 "Unexpected LeaveReason")
    ∧ checkWebhookArgs (some "U1") (leave_c9 "PluginFailedJoin" "105")
        = .error (.photon 2 "Unexpected LeaveReason")
    ∧ rejectedReasons.Nodup ∧ rejectedReasons.length ≠ 3 := by
  decide

/-- A validator-accepted event has the five common fields present. -/
theorem checkWebhookArgs_ok_fields (cpid : Option String) (args : WebhookArgs)
    (h : checkWebhookArgs cpid args = .ok ()) :
    args.AppId.isSome ∧ args.AppVersion.isSome ∧ args.Region.isSome
    ∧ args.GameId.isSome ∧ args.EvType.isSome := by
  unfold checkWebhookArgs at h
  split_ifs at h with h1 h2 h3 h4 h5
  simp_all [Option.isNone_iff_eq_none, Option.isSome_iff_ne_none]

/-- What the claim asserts of a successful leave: the event names an existing
roster slot; with the inactive flag set the slot survives, marked inactive,
the roster size is unchanged and no games list is touched; otherwise the slot
is removed and the leaving caller's games-list entry for the room is deleted. -/
def LeaveOutcome (cpid : Option String) (args : WebhookArgs)
    (st st1 : Store) : Prop :=
  ∃ gid actorNr d a,
    args.GameId = some gid ∧ args.ActorNr = some actorNr ∧
    lget st.rooms gid = some d ∧ lget d.Actors actorNr = some a ∧
    (if args.Inactive = some true then
      (∃ d1, lget st1.rooms gid = some d1 ∧
        lget d1.Actors actorNr = some { a with Inactive := true } ∧
        d1.Actors.length = d.Actors.length) ∧
      st1.lists = st.lists
    else
      (∃ d1, lget st1.rooms gid = some d1 ∧ lget d1.Actors actorNr = none) ∧
      ∃ l, lget st.lists (getGamesListId cpid) = some l ∧
        st1.lists = lset st.lists (getGamesListId cpid) (lerase l gid) ∧
        lget (lerase l gid) gid = none)

/-- C4: for every successful Leave, an inactive-flagged event retains the
actor's roster entry (marked inactive, roster size unchanged) and keeps every
games list untouched, while an event without the flag deletes the roster
entry and the leaving player's games-list entry for that room. -/
theorem c4_leave_retains_or_deletes (cpid : Option String) (args : WebhookArgs)
    (ts : String) (st st1 : Store) (r : WebhookResult)
    (h : roomLeftRun cpid args ts st = (st1, .ok r)) :
    LeaveOutcome cpid args st st1 := by
  unfold roomLeftRun roomLeftCommit at h
  split at h
  · simp at h
  next hchk =>
    obtain ⟨-, -, -, hG, -⟩ := checkWebhookArgs_ok_fields cpid args hchk
    obtain ⟨gid, hgid⟩ := Option.isSome_iff_exists.mp hG
    rw [hgid] at h
    simp only [Option.getD_some] at h
    split at h
    · simp at h
    next data hroom =>
      split at h
      · simp at h
      · split at h
        · simp at h
        next actorNr han =>
          split at h
          · simp at h
          next actor hact =>
            split at h
            · simp at h
            · split at h
              · simp at h
              · split at h
                next hi =>
                  simp only [Prod.mk.injEq] at h
                  obtain ⟨hst1, hr⟩ := h
                  refine ⟨gid, actorNr, data, actor, hgid, han, hroom, hact, ?_⟩
                  rw [if_pos hi, ← hst1]
                  constructor
                  · refine ⟨_, lget_lset_self _ _ _, ?_, ?_⟩
                    · exact lget_lset_self _ _ _
                    · exact length_lset_of_present _ _ _ _ hact
                  · rfl
                next hi =>
                  split at h
                  · simp at h
                  next l hl =>
                    simp only [Prod.mk.injEq] at h
                    obtain ⟨hst1, hr⟩ := h
                    refine ⟨gid, actorNr, data, actor, hgid, han, hroom, hact, ?_⟩
                    rw [if_neg hi, ← hst1]
                    refine ⟨⟨_, lget_lset_self _ _ _, lget_lerase_self _ _⟩,
                      l, hl, rfl, lget_lerase_self _ _⟩

/-- C4 witness: U2's recoverable disconnect from `room_c4` succeeds, and the
leave-outcome property holds at that concrete input. -/
theorem c4_witness :
    LeaveOutcome (some "U2") leave_c4a store_c4
      (roomLeftRun (some "U2") leave_c4a "t1" store_c4).1 :=
  c4_leave_retains_or_deletes (some "U2") leave_c4a "t1" store_c4
    (roomLeftRun (some "U2") leave_c4a "t1" store_c4).1
    { ResultCode := 0, Message := "OK" } (by decide)

/-- A validator-accepted event ran the per-type switch successfully. -/
theorem checkWebhookArgs_ok_type (cpid : Option String) (args : WebhookArgs)
    (h : checkWebhookArgs cpid args = .ok ()) : checkTypeArgs args = .ok () := by
  unfold checkWebhookArgs at h
  split_ifs at h
  split at h
  · simp at h
  · exact h

/-- With the five common fields present and the common identity block
accepted, validation reduces to the per-type switch. -/
theorem checkWebhookArgs_eq_typeArgs (cpid : Option String)
    (args : WebhookArgs) (a1 a2 a3 a4 a5 : String)
    (h1 : args.AppId = some a1) (h2 : args.AppVersion = some a2)
    (h3 : args.Region = some a3) (h4 : args.GameId = some a4)
    (h5 : args.EvType = some a5)
    (hcommon : checkCommonArgs cpid args = .ok ()) :
    checkWebhookArgs cpid args = checkTypeArgs args := by
  unfold checkWebhookArgs
  rw [h1, h2, h3, h4, h5, hcommon]
  rfl

/-- A validator-accepted `Close` event carries actor count exactly 0
(line 277). -/
theorem checkTypeArgs_close (args : WebhookArgs)
    (hT : args.EvType = some "Close") (h : checkTypeArgs args = .ok ()) :
    args.ActorCount = some 0 := by
  unfold checkTypeArgs at h
  rw [hT] at h
  simp at h
  exact h

/-- What the claim asserts of a successful Close: the validator admitted only
actor count 0 and the close handler additionally matched it against the
roster size, so the closed room's roster was empty. -/
def CloseSuccessOnEmpty (args : WebhookArgs) (st : Store) : Prop :=
  args.ActorCount = some 0
  ∧ ∃ gid d, args.GameId = some gid ∧ lget st.rooms gid = some d
      ∧ d.Actors.length = 0

/-- C10: a Close event can only return success on an empty roster: validation
admits a Close only with actor count 0 and the close handler requires the
roster size to equal that count. -/
theorem c10_close_success_only_on_empty_roster (cpid : Option String)
    (args : WebhookArgs) (ts : String) (st st1 : Store) (r : WebhookResult)
    (hT : args.EvType = some "Close")
    (h : roomClosedRun cpid args ts st = (st1, .ok r)) :
    CloseSuccessOnEmpty args st := by
  unfold roomClosedRun at h
  split at h
  · simp at h
  next hchk =>
    have hac : args.ActorCount = some 0 :=
      checkTypeArgs_close args hT (checkWebhookArgs_ok_type cpid args hchk)
    obtain ⟨-, -, -, hG, -⟩ := checkWebhookArgs_ok_fields cpid args hchk
    obtain ⟨gid, hgid⟩ := Option.isSome_iff_exists.mp hG
    rw [hgid] at h
    simp only [Option.getD_some] at h
    split at h
    · simp at h
    next data hroom =>
      split at h
      · simp at h
      next hcount =>
        rw [hac] at hcount
        simp only [ne_eq, not_not, Option.some.injEq] at hcount
        refine ⟨hac, gid, data, hgid, hroom, ?_⟩
        omega

/-- C10 witness: closing the empty-roster room `room_c10` with actor count 0
succeeds, and the emptiness property holds at that input. -/
theorem c10_witness : CloseSuccessOnEmpty close_c10 store_c10 :=
  c10_close_success_only_on_empty_roster none close_c10 "t1" store_c10
    (roomClosedRun none close_c10 "t1" store_c10).1
    { ResultCode := 0, Message := "OK" } rfl (by decide)

/-- The two actor-count mismatch failures a Close can produce, both leaving
the store untouched: the validator's `ActorCount != 0 and Type == Close`
(semantic-mismatch code 2) for a nonzero count, and the close handler's
`Actors count does not match` (code 6) for count 0 against a nonempty
roster. -/
def CloseCountMismatchResult (cpid : Option String) (args : WebhookArgs)
    (ts : String) (st : Store) : Prop :=
  handlersRoomClosed cpid args ts st
      = (st, { ResultCode := 2, Message := "ActorCount != 0 and Type == Close" })
  ∨ handlersRoomClosed cpid args ts st
      = (st, { ResultCode := 6, Message := "Actors count does not match" })

/-- C7: a Close whose supplied actor count differs from the roster size fails
with one of the two actor-count mismatch errors and leaves the store
unchanged; in particular `Close(actorCount=1)` against the two-actor
`room_c1` fails with the validator's count mismatch (code 2). -/
theorem c7_close_count_mismatch :
    (∀ cpid args ts st gid d ac,
        args.EvType = some "Close" →
        args.AppId.isSome → args.AppVersion.isSome → args.Region.isSome →
        args.GameId = some gid →
        checkCommonArgs cpid args = .ok () →
        args.ActorCount = some ac →
        lget st.rooms gid = some d →
        ac ≠ (d.Actors.length : Int) →
        CloseCountMismatchResult cpid args ts st)
    ∧ handlersRoomClosed none close_c7 "t1" store_c1
        = (store_c1,
           { ResultCode := 2, Message := "ActorCount != 0 and Type == Close" })
    ∧ room_c1.Actors.length = 2 ∧ close_c7.ActorCount = some 1 := by
  refine ⟨?_, by decide, by decide, by decide⟩
  intro cpid args ts st gid d ac hT hA hV hR hG hcommon hac hroom hne
  obtain ⟨a1, ha1⟩ := Option.isSome_iff_exists.mp hA
  obtain ⟨a2, ha2⟩ := Option.isSome_iff_exists.mp hV
  obtain ⟨a3, ha3⟩ := Option.isSome_iff_exists.mp hR
  by_cases hz : ac = 0
  · subst hz
    have hchk : checkWebhookArgs cpid args = .ok () := by
      rw [checkWebhookArgs_eq_typeArgs cpid args a1 a2 a3 gid "Close"
        ha1 ha2 ha3 hG hT hcommon]
      unfold checkTypeArgs
      rw [hT, hac]
      rfl
    have hcount : some ((d.Actors.length : Int)) ≠ some (0 : Int) := by
      intro hc
      rw [Option.some.injEq] at hc
      exact hne (by omega)
    right
    unfold handlersRoomClosed roomClosedRun
    simp only [hchk, hG, Option.getD_some, hroom, hac, if_pos hcount]
    rfl
  · left
    have hchk : checkWebhookArgs cpid args
        = .error (.photon 2 "ActorCount != 0 and Type == Close") := by
      rw [checkWebhookArgs_eq_typeArgs cpid args a1 a2 a3 gid "Close"
        ha1 ha2 ha3 hG hT hcommon]
      unfold checkTypeArgs
      rw [hT, hac]
      simp [hz]
    unfold handlersRoomClosed roomClosedRun
    simp [hchk, errResult]

/-- C7 witness: `Close(actorCount=0)` against the two-actor `room_c1` fails
with one of the count-mismatch errors (here the handler's code 6) and leaves
the store unchanged. -/
theorem c7_witness : CloseCountMismatchResult none close_c7b "t2" store_c1 :=
  c7_close_count_mismatch.1 none close_c7b "t2" store_c1 "G1" room_c1 0
    rfl (by decide) (by decide) (by decide) rfl (by decide) rfl (by decide)
    (by decide)

/-- The key-domination invariant of a room record: `NextActorNr` is strictly
greater than every actor number present in `Actors`. -/
def RoomNrInv (d : RoomData) : Prop := ∀ p ∈ d.Actors, p.1 < d.NextActorNr

/-- The invariant over every room record of the store. -/
def StoreNrInv (st : Store) : Prop := ∀ q ∈ st.rooms, RoomNrInv q.2

instance (d : RoomData) : Decidable (RoomNrInv d) := by
  unfold RoomNrInv
  infer_instance

instance (st : Store) : Decidable (StoreNrInv st) := by
  unfold StoreNrInv
  infer_instance

/-- Writing an invariant-respecting record keeps the store invariant. -/
theorem StoreNrInv_write (rs : List (String × RoomData)) (gid : String)
    (d : RoomData) (hst : ∀ q ∈ rs, RoomNrInv q.2) (hd : RoomNrInv d) :
    ∀ q ∈ lset rs gid d, RoomNrInv q.2 := by
  intro q hq
  rcases mem_lset rs gid d q hq with hm | he
  · exact hst q hm
  · rw [he]
    exact hd

/-- A record whose roster is the singleton actor 1 with `NextActorNr = 2`
satisfies the key-domination invariant. -/
theorem RoomNrInv_single (d : RoomData) (a : Actor)
    (h1 : d.Actors = [(1, a)]) (h2 : d.NextActorNr = 2) : RoomNrInv d := by
  intro p hp
  rw [h1] at hp
  rw [h2]
  simp at hp
  simp [hp]

/-- `onGameCreated` preserves the store invariant: the record it writes has
`Actors = {1: ...}` and `NextActorNr = 2` regardless of any prior record. -/
theorem onGameCreated_preserves_inv (g : ScriptEnv) (cpid : Option String)
    (args : WebhookArgs) (ts : String) (st : Store) (hst : StoreNrInv st) :
    StoreNrInv (onGameCreated g cpid args ts st).1 := by
  unfold onGameCreated StoreNrInv
  dsimp only []
  split
  · dsimp only []
    apply StoreNrInv_write _ _ _ hst
    split
    · exact RoomNrInv_single _ _ rfl rfl
    · exact RoomNrInv_single _ _ rfl rfl
  · dsimp only []
    apply StoreNrInv_write _ _ _ hst
    split
    · exact RoomNrInv_single _ _ rfl rfl
    · exact RoomNrInv_single _ _ rfl rfl

/-- `roomJoinedCommit` preserves the store invariant when handed an
invariant-respecting record (appending the join event changes neither the
roster nor `NextActorNr`). -/
theorem roomJoinedCommit_preserves_inv (cpid : Option String)
    (args : WebhookArgs) (ts : String) (st : Store) (gid : String)
    (d : RoomData) (hst : StoreNrInv st) (hd : RoomNrInv d) :
    StoreNrInv (roomJoinedCommit cpid args ts st gid d).1 := by
  unfold roomJoinedCommit StoreNrInv
  dsimp only []
  have hd2 : RoomNrInv { d with JoinEvents := some (lset (d.JoinEvents.getD [])
      ts { ActorNr := args.ActorNr, UserId := args.UserId }) } := hd
  split
  · exact StoreNrInv_write st.rooms gid _ hst hd2
  · exact StoreNrInv_write st.rooms gid _ hst hd2

/-- `handlers.RoomJoined` preserves the store invariant on every path,
including the partially-written error paths: a new actor is only ever
inserted at key `NextActorNr`, and `NextActorNr` is then incremented. -/
theorem roomJoinedRun_preserves_inv (cpid : Option String)
    (args : WebhookArgs) (ts : String) (st : Store) (hst : StoreNrInv st) :
    StoreNrInv (roomJoinedRun cpid args ts st).1 := by
  unfold roomJoinedRun
  dsimp only []
  split
  · exact hst
  · split
    · exact hst
    next data hroom =>
      split
      · exact hst
      · split
        · exact hst
        next ro hro =>
          split
          · exact hst
          next actorNr han =>
            split
            · exact hst
            · split
              next heq =>
                split
                · exact hst
                next aro haro =>
                  split
                  · exact hst
                  · apply roomJoinedCommit_preserves_inv _ _ _ _ _ _ hst
                    have hd : RoomNrInv data := hst _ (mem_of_lget _ _ _ hroom)
                    intro p hp
                    dsimp only [] at hp ⊢
                    rcases mem_lset _ _ _ _ hp with hm | he
                    · have := hd p hm
                      omega
                    · rw [he]
                      dsimp only []
                      omega
              · exact hst

/-- `roomLeftCommit` preserves the store invariant when handed an
invariant-respecting record. -/
theorem roomLeftCommit_preserves_inv (args : WebhookArgs) (ts : String)
    (st : Store) (gid : String) (d : RoomData) (hst : StoreNrInv st)
    (hd : RoomNrInv d) : StoreNrInv (roomLeftCommit args ts st gid d).1 := by
  unfold roomLeftCommit StoreNrInv
  dsimp only []
  exact StoreNrInv_write st.rooms gid _ hst hd

/-- `handlers.RoomLeft` preserves the store invariant on every path: a leave
only marks or removes an existing slot and leaves `NextActorNr` alone. -/
theorem roomLeftRun_preserves_inv (cpid : Option String)
    (args : WebhookArgs) (ts : String) (st : Store) (hst : StoreNrInv st) :
    StoreNrInv (roomLeftRun cpid args ts st).1 := by
  unfold roomLeftRun
  dsimp only []
  split
  · exact hst
  · split
    · exact hst
    next data hroom =>
      have hd : RoomNrInv data := hst _ (mem_of_lget _ _ _ hroom)
      split
      · exact hst
      · split
        · exact hst
        next actorNr han =>
          split
          · exact hst
          next actor hact =>
            split
            · exact hst
            · split
              · exact hst
              · split
                · apply roomLeftCommit_preserves_inv _ _ _ _ _ hst
                  intro p hp
                  dsimp only [] at hp ⊢
                  rcases mem_lset _ _ _ _ hp with hm | he
                  · exact hd p hm
                  · rw [he]
                    exact hd (actorNr, actor) (mem_of_lget _ _ _ hact)
                · split
                  · exact hst
                  · apply roomLeftCommit_preserves_inv
                    · intro q hq
                      exact hst q hq
                    · intro p hp
                      dsimp only [] at hp
                      exact hd p (mem_lerase _ _ _ hp)

/-- A Join never re-inserts an actor number below `NextActorNr` that is
absent from the roster: the only key a join can add is `NextActorNr` itself. -/
theorem roomJoinedRun_no_reuse (cpid : Option String) (args : WebhookArgs)
    (ts : String) (st : Store) (gid : String) (d d1 : RoomData) (k : Int)
    (hd : lget st.rooms gid = some d)
    (hd1 : lget (roomJoinedRun cpid args ts st).1.rooms gid = some d1)
    (hk : k < d.NextActorNr) (habs : lget d.Actors k = none) :
    lget d1.Actors k = none := by
  unfold roomJoinedRun roomJoinedCommit at hd1
  dsimp only [] at hd1
  split at hd1
  · rw [hd] at hd1; injection hd1 with hs; subst hs; exact habs
  · split at hd1
    · rw [hd] at hd1; injection hd1 with hs; subst hs; exact habs
    next data hroom =>
      split at hd1
      · rw [hd] at hd1; injection hd1 with hs; subst hs; exact habs
      · split at hd1
        · rw [hd] at hd1; injection hd1 with hs; subst hs; exact habs
        next ro hro =>
          split at hd1
          · rw [hd] at hd1; injection hd1 with hs; subst hs; exact habs
          next actorNr han =>
            split at hd1
            · rw [hd] at hd1; injection hd1 with hs; subst hs; exact habs
            · split at hd1
              next heq =>
                split at hd1
                · rw [hd] at hd1; injection hd1 with hs; subst hs; exact habs
                next aro haro =>
                  split at hd1
                  · rw [hd] at hd1; injection hd1 with hs; subst hs; exact habs
                  · split at hd1 <;>
                    · dsimp only [] at hd1
                      by_cases hg : gid = args.GameId.getD "undefined"
                      · subst hg
                        have hdd : data = d := by
                          rw [hd] at hroom
                          injection hroom with hv
                          exact hv.symm
                        subst hdd
                        have hkne : k ≠ actorNr := by omega
                        rw [lget_lset_self] at hd1
                        injection hd1 with hs
                        subst hs
                        dsimp only []
                        rw [lget_lset_ne _ _ _ _ hkne]
                        exact habs
                      · rw [lget_lset_ne _ _ _ _ hg, hd] at hd1
                        injection hd1 with hs
                        subst hs
                        exact habs
              · rw [hd] at hd1; injection hd1 with hs; subst hs; exact habs

/-- A Leave never adds an actor number: a slot absent before a leave is
absent after it, whether the leave marks or removes. -/
theorem roomLeftRun_no_reuse (cpid : Option String) (args : WebhookArgs)
    (ts : String) (st : Store) (gid : String) (d d1 : RoomData) (k : Int)
    (hd : lget st.rooms gid = some d)
    (hd1 : lget (roomLeftRun cpid args ts st).1.rooms gid = some d1)
    (habs : lget d.Actors k = none) : lget d1.Actors k = none := by
  unfold roomLeftRun roomLeftCommit at hd1
  dsimp only [] at hd1
  split at hd1
  · rw [hd] at hd1; injection hd1 with hs; subst hs; exact habs
  · split at hd1
    · rw [hd] at hd1; injection hd1 with hs; subst hs; exact habs
    next data hroom =>
      split at hd1
      · rw [hd] at hd1; injection hd1 with hs; subst hs; exact habs
      · split at hd1
        · rw [hd] at hd1; injection hd1 with hs; subst hs; exact habs
        next actorNr han =>
          split at hd1
          · rw [hd] at hd1; injection hd1 with hs; subst hs; exact habs
          next actor hact =>
            split at hd1
            · rw [hd] at hd1; injection hd1 with hs; subst hs; exact habs
            · split at hd1
              · rw [hd] at hd1; injection hd1 with hs; subst hs; exact habs
              · split at hd1
                · by_cases hg : gid = args.GameId.getD "undefined"
                  · subst hg
                    have hdd : data = d := by
                      rw [hd] at hroom
                      injection hroom with hv
                      exact hv.symm
                    subst hdd
                    have hkne : k ≠ actorNr := by
                      intro he
                      rw [he, hact] at habs
                      cases habs
                    rw [lget_lset_self] at hd1
                    injection hd1 with hs
                    subst hs
                    dsimp only []
                    rw [lget_lset_ne _ _ _ _ hkne]
                    exact habs
                  · rw [lget_lset_ne _ _ _ _ hg, hd] at hd1
                    injection hd1 with hs
                    subst hs
                    exact habs
                · split at hd1
                  · rw [hd] at hd1; injection hd1 with hs; subst hs; exact habs
                  · by_cases hg : gid = args.GameId.getD "undefined"
                    · subst hg
                      have hdd : data = d := by
                        rw [hd] at hroom
                        injection hroom with hv
                        exact hv.symm
                      subst hdd
                      have hkne : k ≠ actorNr := by
                        intro he
                        rw [he, hact] at habs
                        cases habs
                      rw [lget_lset_self] at hd1
                      injection hd1 with hs
                      subst hs
                      dsimp only []
                      rw [lget_lerase_ne _ _ _ hkne]
                      exact habs
                    · rw [lget_lset_ne _ _ _ _ hg, hd] at hd1
                      injection hd1 with hs
                      subst hs
                      exact habs

/-- C6: `NextActorNr` strictly dominates every key of `Actors`: a fresh
record is created with the single actor 1 and `NextActorNr = 2`, the store
invariant is preserved by the create, join and leave handlers on every path,
and a join or leave never brings back an actor number that was previously
assigned (below `NextActorNr`) but is no longer in the roster. -/
theorem c6_nextactornr_dominates_roster :
    (∀ g args ts, RoomNrInv (newRoomData g args ts)
      ∧ (newRoomData g args ts).NextActorNr = 2
      ∧ (newRoomData g args ts).Actors.map Prod.fst = [1])
    ∧ (∀ g cpid args ts st, StoreNrInv st →
        StoreNrInv (onGameCreated g cpid args ts st).1)
    ∧ (∀ cpid args ts st, StoreNrInv st →
        StoreNrInv (roomJoinedRun cpid args ts st).1)
    ∧ (∀ cpid args ts st, StoreNrInv st →
        StoreNrInv (roomLeftRun cpid args ts st).1)
    ∧ (∀ cpid args ts st gid d d1 k, lget st.rooms gid = some d →
        lget (roomJoinedRun cpid args ts st).1.rooms gid = some d1 →
        k < d.NextActorNr → lget d.Actors k = none → lget d1.Actors k = none)
    ∧ (∀ cpid args ts st gid d d1 k, lget st.rooms gid = some d →
        lget (roomLeftRun cpid args ts st).1.rooms gid = some d1 →
        lget d.Actors k = none → lget d1.Actors k = none) := by
  refine ⟨fun g args ts => ⟨RoomNrInv_single _ _ rfl rfl, rfl, rfl⟩,
    fun g cpid args ts st h => onGameCreated_preserves_inv g cpid args ts st h,
    fun cpid args ts st h => roomJoinedRun_preserves_inv cpid args ts st h,
    fun cpid args ts st h => roomLeftRun_preserves_inv cpid args ts st h,
    fun cpid args ts st gid d d1 k h1 h2 h3 h4 =>
      roomJoinedRun_no_reuse cpid args ts st gid d d1 k h1 h2 h3 h4,
    fun cpid args ts st gid d d1 k h1 h2 h3 =>
      roomLeftRun_no_reuse cpid args ts st gid d d1 k h1 h2 h3⟩

/-- C6 witness: the invariant holds after U3's join of `room_c1` from the
invariant-satisfying `store_c1`. -/
theorem c6_witness :
    StoreNrInv (roomJoinedRun (some "U3") join_c1 "t1" store_c1).1 :=
  c6_nextactornr_dominates_roster.2.2.1 (some "U3") join_c1 "t1" store_c1
    (by decide)

/-- A leave-family type is none of the named `switch` cases. -/
theorem leaveReason_type_ne_cases (t code : String)
    (hlr : lget LeaveReason t = some code) :
    t ≠ "Load" ∧ t ≠ "Create" ∧ t ≠ "Join" ∧ t ≠ "Player" ∧ t ≠ "Game"
    ∧ t ≠ "Event" ∧ t ≠ "Save" ∧ t ≠ "Close" ∧ t ≠ "Leave" := by
  have hmem := mem_of_lget _ _ _ hlr
  have ht : t ∈ LeaveReason.map Prod.fst := List.mem_map_of_mem Prod.fst hmem
  fin_cases ht <;> decide

/-- Bridge between the boolean `contains` of the rejection check and list
membership. -/
theorem contains_iff_mem (l : List String) (a : String) :
    l.contains a = true ↔ a ∈ l := List.elem_iff

/-- What the amended claim asserts of leave-family validation: it accepts
exactly the events with the inactive flag present and a reason equal to the
enumeration code of the type, provided that code is not one of the four
categorically rejected codes; a present-but-mismatching reason fails with the
mismatch error; and the rejection list has four entries. -/
def LeaveValidationSpec (cpid : Option String) (args : WebhookArgs)
    (code : String) : Prop :=
  (checkWebhookArgs cpid args = .ok ()
     ↔ args.IsInactive.isSome ∧ args.Reason = some code
        ∧ code ∉ rejectedReasons)
  ∧ (∀ r, args.IsInactive.isSome → args.Reason = some r → r ≠ code →
      checkWebhookArgs cpid args
        = .error (.photon 2 "Reason code does not match Leave Type string"))
  ∧ rejectedReasons.length = 4

/-- C9 (amended): for an event of a leave-family type with the required
common fields supplied and the caller authenticated, validation succeeds
exactly when the inactive flag is present and the reason equals the
enumeration code of the type outside the four categorically rejected codes;
any present-but-different reason fails as a type/reason mismatch. -/
theorem c9_leave_validation_characterisation (cpid : Option String)
    (args : WebhookArgs) (t code : String)
    (hT : args.EvType = some t)
    (hlr : lget LeaveReason t = some code)
    (hA : args.AppId.isSome) (hV : args.AppVersion.isSome)
    (hR : args.Region.isSome) (hG : args.GameId.isSome)
    (hAn : args.ActorNr.isSome)
    (hU : args.UserId = cpid) (hUs : args.UserId.isSome)
    (hN : args.Username.isSome ∨ args.Nickname.isSome) :
    LeaveValidationSpec cpid args code := by
  obtain ⟨hL1, hL2, hL3, hL4, hL5, hL6, hL7, hL8, hL9⟩ :=
    leaveReason_type_ne_cases t code hlr
  obtain ⟨a1, h1⟩ := Option.isSome_iff_exists.mp hA
  obtain ⟨a2, h2⟩ := Option.isSome_iff_exists.mp hV
  obtain ⟨a3, h3⟩ := Option.isSome_iff_exists.mp hR
  obtain ⟨a4, h4⟩ := Option.isSome_iff_exists.mp hG
  obtain ⟨an, han⟩ := Option.isSome_iff_exists.mp hAn
  obtain ⟨u, hu⟩ := Option.isSome_iff_exists.mp hUs
  have hcommon : checkCommonArgs cpid args = .ok () := by
    unfold checkCommonArgs
    rw [if_pos ⟨by simp [hT, hL8], by simp [hT, hL7]⟩, han, hu]
    rw [hu] at hU
    rcases hN with hN | hN <;>
      obtain ⟨n, hn⟩ := Option.isSome_iff_exists.mp hN <;>
      simp [← hU, hn]
  have heq : checkWebhookArgs cpid args = checkTypeArgs args :=
    checkWebhookArgs_eq_typeArgs cpid args a1 a2 a3 a4 t h1 h2 h3 h4 hT hcommon
  have htype : checkTypeArgs args = checkLeaveTypeArgs args code := by
    unfold checkTypeArgs
    rw [hT]
    simp only [Option.some.injEq, hL1, hL2, hL3, hL4, hL5, hL6, hL7, hL8, hL9,
      if_false, Option.getD_some, hlr]
  unfold LeaveValidationSpec
  rw [heq, htype]
  unfold checkLeaveTypeArgs
  refine ⟨?_, ?_, rfl⟩
  · cases hi : args.IsInactive with
    | none => simp [hi]
    | some b =>
      cases hr : args.Reason with
      | none => simp [hi, hr]
      | some r =>
        simp only [Option.isNone_some, Bool.false_eq_true, if_false,
          ite_false, Option.getD_some, Option.isSome_some, true_and,
          Option.some.injEq]
        by_cases hrc : code = r
        · subst hrc
          rw [if_neg (by simp)]
          by_cases hcont : code ∈ rejectedReasons
          · rw [if_pos ((contains_iff_mem rejectedReasons code).mpr hcont)]
            simp only [reduceCtorEq, false_iff, not_and]
            intro _ hn
            exact absurd hcont hn
          · rw [if_neg (fun hc => hcont ((contains_iff_mem _ _).mp hc))]
            simp [hcont]
        · rw [if_pos (by simp [hrc])]
          simp only [reduceCtorEq, false_iff, not_and]
          intro he
          exact absurd he.symm hrc
  · intro r hisome hre hrc
    rw [hre]
    obtain ⟨b, hb⟩ := Option.isSome_iff_exists.mp hisome
    rw [hb]
    rw [if_neg (by simp), if_neg (by simp)]
    rw [if_pos (by simp; exact fun he => hrc he.symm)]

/-- C9 witness: the characterisation at the concrete `ClientDisconnect`
events: the matching reason `0` passes, while reason `2` (the
`ManagedDisconnect` code) fails as a mismatch. -/
theorem c9_leave_validation_witness :
    LeaveValidationSpec (some "U1") (leave_c9 "ClientDisconnect" "0") "0" :=
  c9_leave_validation_characterisation (some "U1")
    (leave_c9 "ClientDisconnect" "0") "ClientDisconnect" "0" rfl (by decide)
    (by decide) (by decide) (by decide) (by decide) (by decide) rfl
    (by decide) (Or.inr (by decide))

end NetworkTestCloudScript
